import Mathlib

/-!
# SvelteReader payment core: shallow embedding and verification

This file embeds the payment-metering logic of the SvelteReader repository
in Lean 4 and proves (or refutes) the frozen specification claims about it.

Embedded source files:
* `src/agent-examples/socratic/middleware/payment.py` — the
  `CashuPaymentMiddleware` (token validation, per-tool-call deduction,
  exhaustion interrupt, refund generation);
* `src/agent/src/agent/graph.py` — the LangGraph payment flow
  (format validation, agent/finalize nodes, redemption);
* `src/payments/src/routers/wallet.py` — the wallet `POST /send` endpoint.

Python machine-independent integers are modelled as `Int`/`Nat`; Python
strings as `String` operated on through their character lists (so every
definition kernel-evaluates); dictionaries with optional keys as `Option`
fields; functions that call external libraries (the `cashu` wallet library,
`base64`, the HTTP wallet service) take those externals as explicit oracle
parameters; `print` diagnostics and calls to external services are captured
as ghost log values so that temporal claims ("no redemption call was ever
made") can be stated.
-/

/-! ## Character and decimal-string utilities

Python's `str.startswith`, `str.split("_")[-1]`, `int(...)` and f-string
decimal formatting, embedded over character lists. -/

/-- Python `s.startswith(p)`: `p.data` is a list-prefix of `s.data`. -/
def pyStartsWith (s p : String) : Bool :=
  List.isPrefixOf p.data s.data

/-- Python truthiness of an optional string: `None` and `""` are falsy. -/
def truthy : Option String → Bool
  | none => false
  | some s => s ≠ ""

/-- The last segment of Python `s.split("_")`: the characters after the last
underscore (the whole string when there is none). -/
def lastUnderscoreSeg (l : List Char) : List Char :=
  l.foldl (fun acc c => if c = '_' then [] else acc ++ [c]) []

/-- The whitespace characters Python `int(str)` strips. -/
def pySpace (c : Char) : Bool :=
  c = ' ' || c = '\t' || c = '\n' || c = '\r' || c = '\x0b' || c = '\x0c'

/-- Strip leading and trailing Python whitespace from a character list. -/
def pyStrip (l : List Char) : List Char :=
  ((l.dropWhile (fun c => pySpace c)).reverse.dropWhile (fun c => pySpace c)).reverse

/-- Decimal digit accumulation: `none` as soon as a non-digit appears. -/
def foldDigits : List Char → Nat → Option Nat
  | [], a => some a
  | c :: cs, a => if c.isDigit then foldDigits cs (a * 10 + (c.toNat - 48)) else none

/-- A non-empty all-digit character list as a natural number. -/
def parseNatDigits (l : List Char) : Option Nat :=
  match l with
  | [] => none
  | _ :: _ => foldDigits l 0

/-- Python `int(s)` on the strings reachable here: strip whitespace, an
optional sign, then decimal digits; `none` models a raised `ValueError`. -/
def pyParseInt (l : List Char) : Option Int :=
  match pyStrip l with
  | [] => none
  | c :: rest =>
    if c = '-' then (parseNatDigits rest).map (fun n => -(n : Int))
    else if c = '+' then (parseNatDigits rest).map (fun n => (n : Int))
    else (parseNatDigits (c :: rest)).map (fun n => (n : Int))

/-- The decimal digit character of `n < 10` (`'x'` is unreachable). -/
def digitChar10 (n : Nat) : Char :=
  match n with
  | 0 => '0' | 1 => '1' | 2 => '2' | 3 => '3' | 4 => '4'
  | 5 => '5' | 6 => '6' | 7 => '7' | 8 => '8' | 9 => '9'
  | _ => 'x'

/-- Fuel-driven decimal rendering; fuel `n + 1` always suffices. -/
def natDecFuel : Nat → Nat → List Char → List Char
  | 0, _, acc => acc
  | fuel + 1, n, acc =>
    if n < 10 then digitChar10 n :: acc
    else natDecFuel fuel (n / 10) (digitChar10 (n % 10) :: acc)

/-- Python `str(n)` for a natural `n`: its decimal digits. -/
def natDec (n : Nat) : List Char :=
  natDecFuel (n + 1) n []

/-- Python `str(i)` for an integer. -/
def intDec (i : Int) : List Char :=
  if i < 0 then '-' :: natDec (-i).toNat else natDec i.toNat

/-- Python `str(i)` as a `String`. -/
def intStr (i : Int) : String :=
  String.mk (intDec i)

example : pyParseInt "-5".data = some (-5) := by decide
example : pyParseInt "30".data = some 30 := by decide
example : pyParseInt "debug".data = none := by decide
example : lastUnderscoreSeg "cashu_debug_-5".data = "-5".data := by decide
example : natDec 1507 = "1507".data := by decide
example : pyStartsWith "cashu_debug_50" "cashu_debug_" = true := by decide
example : pyStartsWith "notcashu123" "cashu_debug_" = false := by decide

/-! ## Token operations (`payment.py`)

`validate_token_sync` and `generate_refund_token_sync`. The `cashu` wallet
library (`deserialize_token` followed by `sum_proofs`) is an external
collaborator: it is passed in as an oracle `deserializeSum`, where
`.ok amt` models a successful deserialization summing to `amt` and
`.error e` models a raised exception with text `e`. `devMode` is the
`DEV_MODE` environment flag (its default in the source is `true`). -/

/-- The amount embedded in a debug token: `int(token.split("_")[-1])`, with
`100` when parsing raises. -/
def debugTokenAmount (token : String) : Int :=
  (pyParseInt (lastUnderscoreSeg token.data)).getD 100

/-- `validate_token_sync(token)` from
`src/agent-examples/socratic/middleware/payment.py`: returns
`(is_valid, amount_sats, error_message)`. -/
def validate_token_sync (devMode : Bool) (deserializeSum : String → Except String Int)
    (token : String) : Bool × Int × Option String :=
  if token = "" then (false, 0, some "No token provided")
  else if pyStartsWith token "cashu_debug_" || token = "debug" then
    (true, debugTokenAmount token, none)
  else if devMode then
    match deserializeSum token with
    | .ok amount => (true, amount, none)
    | .error _ => (true, 100, none)
  else
    match deserializeSum token with
    | .ok amount => (true, amount, none)
    | .error e => (false, 0, some e)

/-- `generate_refund_token_sync(original_token, amount)`: `None` for a
non-positive amount, otherwise the literal f-string
`f"cashu_refund_{amount}"` (the `DEV_MODE` and production branches of the
source build the same string). -/
def generate_refund_token_sync (devMode : Bool) (original_token : String)
    (amount : Int) : Option String :=
  if amount ≤ 0 then none
  else
    let tok := String.mk ("cashu_refund_".data ++ intDec amount)
    if devMode then some tok else some tok

/-- The amount a refund token encodes: the decimal suffix after the
`cashu_refund_` prefix (a decoder for stating "encodes exactly"). -/
def decodeRefundToken (s : String) : Option Int :=
  if pyStartsWith s "cashu_refund_" then pyParseInt (s.data.drop 13) else none

example : validate_token_sync false (fun _ => .error "x") "cashu_debug_50" =
    (true, 50, none) := by decide
example : validate_token_sync true (fun _ => .error "x") "notcashu123" =
    (true, 100, none) := by decide
example : validate_token_sync false (fun _ => .error "bad") "notcashu123" =
    (false, 0, some "bad") := by decide
example : generate_refund_token_sync true "t" 50 = some "cashu_refund_50" := by decide
example : decodeRefundToken "cashu_refund_50" = some 50 := by decide

/-! ## The exhaustion interrupt payload

`awrap_tool_call` builds a literal dict and passes it to `interrupt(...)`.
The dict is embedded as a JSON-like value so that claims about its keys and
numbers can be stated. -/

/-- JSON-shaped values: the shape of the `interrupt_data` dict. -/
inductive JVal where
  | jstr : String → JVal
  | jnum : Int → JVal
  | jarr : List JVal → JVal
  | jobj : List (String × JVal) → JVal

mutual

/-- Every object key occurring anywhere in a `JVal`. -/
def jkeys : JVal → List String
  | .jstr _ => []
  | .jnum _ => []
  | .jarr l => jkeysList l
  | .jobj l => jkeysPairs l

def jkeysList : List JVal → List String
  | [] => []
  | v :: vs => jkeys v ++ jkeysList vs

def jkeysPairs : List (String × JVal) → List String
  | [] => []
  | (k, v) :: vs => k :: (jkeys v ++ jkeysPairs vs)

end

mutual

/-- Every number occurring anywhere in a `JVal`. -/
def jnums : JVal → List Int
  | .jstr _ => []
  | .jnum i => [i]
  | .jarr l => jnumsList l
  | .jobj l => jnumsPairs l

def jnumsList : List JVal → List Int
  | [] => []
  | v :: vs => jnums v ++ jnumsList vs

def jnumsPairs : List (String × JVal) → List Int
  | [] => []
  | (_, v) :: vs => jnums v ++ jnumsPairs vs

end

/-- Whether a key occurs anywhere in a `JVal`. -/
def jHasKey (v : JVal) (k : String) : Bool :=
  (jkeys v).contains k

/-- The value of a key in a top-level object. -/
def jGet (v : JVal) (k : String) : Option JVal :=
  match v with
  | .jobj l => (l.find? (fun p => p.1 = k)).map (·.2)
  | _ => none

/-- The `interrupt_data` dict of `awrap_tool_call`
(`src/agent-examples/socratic/middleware/payment.py`, lines 413–429),
as a function of the local `spent` value read at entry. -/
def interruptData (spent : Int) : JVal :=
  .jobj
    [ ("type", .jstr "payment_exhausted"),
      ("spent_sats", .jnum spent),
      ("message", .jstr "Payment balance exhausted. Please add more funds."),
      ("action_requests", .jarr
        [ .jobj
            [ ("name", .jstr "request_additional_funding"),
              ("args", .jobj
                [ ("reason", .jstr "Funds exhausted"),
                  ("spent_so_far", .jnum spent) ]) ] ]),
      ("review_configs", .jarr
        [ .jobj
            [ ("action_name", .jstr "request_additional_funding"),
              ("allowed_decisions", .jarr [.jstr "approve", .jstr "reject"]) ] ]) ]

example : jnums (interruptData 10) = [10, 10] := by decide
example : jHasKey (interruptData 10) "suggested_amount_sats" = false := by decide
example : jHasKey (interruptData 10) "spent_sats" = true := by decide

/-! ## The middleware payment state machine (`payment.py`)

`CashuPaymentState` and `CashuPaymentMiddleware.awrap_tool_call`. The
LangGraph state dict is modelled as a record whose fields carry the
`state.get(key, default)` defaults of the source (`None`, `0`, `"pending"`,
`False`). The source reads `token`, `balance`, `spent`, `status` into local
variables at entry and updates the state dict and (some of) the locals as it
goes; the embedding follows that aliasing exactly, phase by phase, so each
phase returns both the updated state and the updated locals. -/

/-- `payment_status` values. -/
inductive PStatus where
  | pending | active | exhausted | completed | error | refunded
deriving Repr, DecidableEq

/-- The payment fields of `CashuPaymentState`. -/
structure PayState where
  payment_token : Option String
  payment_balance_sats : Int
  payment_spent_sats : Int
  payment_status : PStatus
  payment_refund_token : Option String
  payment_refund_claimed : Bool
deriving Repr, DecidableEq

/-- A validation routine as `awrap_tool_call` sees it: its tuple result. -/
abbrev Validator := String → Bool × Int × Option String

/-- Outcome of the "Initialize if this is the first tool call" block
(`awrap_tool_call` lines 390–405): updated state plus the local
`balance`/`status` variables as the Python leaves them. On validation
failure the source updates only `state["payment_status"]`, so the local
`status` stays `pending` and the local `balance` keeps its entry value. -/
structure InitOut where
  st : PayState
  balance : Int
  status : PStatus
  face : Option Int
deriving Repr

def paymentInit (validate : Validator) (s : PayState) : InitOut :=
  if s.payment_status = .pending then
    if truthy s.payment_token then
      match validate (s.payment_token.getD "") with
      | (true, amount, _) =>
        ⟨{s with payment_balance_sats := amount, payment_status := .active},
          amount, .active, some amount⟩
      | (false, _, _) =>
        ⟨{s with payment_status := .error}, s.payment_balance_sats, .pending, none⟩
    else
      ⟨{s with payment_status := .active}, s.payment_balance_sats, .active, none⟩
  else ⟨s, s.payment_balance_sats, s.payment_status, none⟩

/-- Outcome of the "Check if we have funds" block (lines 407–443): when the
original token is truthy, the local balance is `≤ 0` and the local status is
`active`, the state moves to `exhausted` and `interrupt(interrupt_data)` is
raised; `resume` models the value the interrupt returns on resumption —
`some t` for a dict carrying a truthy `payment_token`, `none` for anything
else. On a valid resume token the state's token, balance and status are
replaced and the local `balance` follows, while the local `status` and
`spent` are left as they were. -/
structure ExhaustOut where
  st : PayState
  balance : Int
  topup : Option Int
  intr : Option JVal

def paymentExhaust (validate : Validator) (origTok : Option String) (spent : Int)
    (resume : Option String) (st : PayState) (balance : Int) (status : PStatus) :
    ExhaustOut :=
  if truthy origTok = true ∧ balance ≤ 0 ∧ status = .active then
    let stE := {st with payment_status := .exhausted}
    let payload := interruptData spent
    match resume with
    | some newTok =>
      if newTok ≠ "" then
        match validate newTok with
        | (true, amount, _) =>
          ⟨{stE with payment_token := some newTok, payment_balance_sats := amount, payment_status := .active},
            amount, some amount, some payload⟩
        | (false, _, _) => ⟨stE, balance, none, some payload⟩
      else ⟨stE, balance, none, some payload⟩
    | none => ⟨stE, balance, none, some payload⟩
  else ⟨st, balance, none, none⟩

/-- Outcome of the "Deduct cost for this tool call" block (lines 445–451):
guarded by the truthiness of the token read at entry and `balance >= cost`;
no status check. `spent` is the local read at entry. -/
structure DeductOut where
  st : PayState
  deducted : Bool
deriving Repr

def paymentDeduct (cost : Int) (origTok : Option String) (spent : Int)
    (st : PayState) (balance : Int) : DeductOut :=
  if truthy origTok = true ∧ cost ≤ balance then
    ⟨{st with payment_balance_sats := balance - cost, payment_spent_sats := spent + cost}, true⟩
  else ⟨st, false⟩

/-- Ghost log of one `awrap_tool_call`: whether the wrapped tool handler ran,
the interrupt payload emitted (if any), the amount a successful first
validation set (`face`), the amount a successful resume set (`topup`), and
whether a deduction was committed. -/
structure StepLog where
  handlerCalled : Bool
  intr : Option JVal
  face : Option Int
  topup : Option Int
  deducted : Bool

/-- `CashuPaymentMiddleware.awrap_tool_call` (lines 366–454): tools whose
name starts with `_` bypass everything; otherwise initialization, exhaustion
check and deduction run in order and the tool handler always executes at the
end (the source has no early return after the interrupt). -/
def awrap_tool_call (cost : Int) (validate : Validator) (toolName : String)
    (resume : Option String) (s : PayState) : PayState × StepLog :=
  if pyStartsWith toolName "_" = true then
    (s, ⟨true, none, none, none, false⟩)
  else
    let token := s.payment_token
    let spent := s.payment_spent_sats
    let p1 := paymentInit validate s
    let p2 := paymentExhaust validate token spent resume p1.st p1.balance p1.status
    let p3 := paymentDeduct cost token spent p2.st p2.balance
    (p3.st, ⟨true, p2.intr, p1.face, p2.topup, p3.deducted⟩)

/-- The initial payment state of a session that provides `token` in its
input and nothing else: every other field takes its `state.get` default. -/
def initPayState (token : String) : PayState :=
  ⟨some token, 0, 0, .pending, none, false⟩

/-- Instrumented session run: the state together with the ghost quantities
of the conservation law — the face value set by the session's first
successful validation and the sum of top-up amounts. -/
structure GRun where
  st : PayState
  face : Int
  topups : Int
deriving Repr

/-- One billable event seen by the middleware: the tool name of the call and
the resume value its interrupt (if one fires) returns. -/
structure MidEvent where
  toolName : String
  resume : Option String

/-- One instrumented `awrap_tool_call`. -/
def runStep (cost : Int) (validate : Validator) (g : GRun) (ev : MidEvent) : GRun :=
  let r := awrap_tool_call cost validate ev.toolName ev.resume g.st
  ⟨r.1, g.face + (r.2.face.getD 0), g.topups + (r.2.topup.getD 0)⟩

/-- A whole instrumented session: a fold of `runStep` over the events. -/
def runSession (cost : Int) (validate : Validator) (events : List MidEvent)
    (g : GRun) : GRun :=
  events.foldl (runStep cost validate) g

/-- The instrumented start of a session with `token` in the input. -/
def initRun (token : String) : GRun :=
  ⟨initPayState token, 0, 0⟩

/-- `CashuPaymentMiddleware.after_agent` (lines 475–497): the update dict it
returns, with `none` for a key the dict does not carry. -/
structure AfterAgentOut where
  payment_status : PStatus
  payment_refund_token : Option String
  payment_refund_claimed : Option Bool
deriving Repr, DecidableEq

def after_agent (devMode : Bool) (s : PayState) : AfterAgentOut :=
  if truthy s.payment_token = false ∨ s.payment_balance_sats ≤ 0 then
    ⟨.completed, none, none⟩
  else
    match generate_refund_token_sync devMode (s.payment_token.getD "")
        s.payment_balance_sats with
    | some refund_token => ⟨.completed, some refund_token, some false⟩
    | none => ⟨.completed, none, none⟩

section MiddlewareChecks

/-- A session state mid-run: token held, 5 sats left, 10 spent, active. -/
def exampleLowBalance : PayState := ⟨some "cashuAexample", 5, 10, .active, none, false⟩

example :
    awrap_tool_call 10 (fun _ => (true, 100, none)) "search_book" none exampleLowBalance
      = (exampleLowBalance, ⟨true, none, none, none, false⟩) := by rfl

example :
    (awrap_tool_call 10 (validate_token_sync true (fun _ => .error "x"))
      "search_book" (some "cashu_debug_30") (initPayState "cashu_debug_-5")).1
      = ⟨some "cashu_debug_30", 20, 10, .active, none, false⟩ := by decide

example :
    runSession 10 (validate_token_sync true (fun _ => .error "x"))
      [⟨"search_book", some "cashu_debug_30"⟩] (initRun "cashu_debug_-5")
      = ⟨⟨some "cashu_debug_30", 20, 10, .active, none, false⟩, -5, 30⟩ := by rfl

example :
    awrap_tool_call 10 (validate_token_sync false (fun _ => .error "boom"))
      "search_book" none ⟨some "notcashu123", 100, 0, .pending, none, false⟩
      = (⟨some "notcashu123", 90, 10, .error, none, false⟩,
         ⟨true, none, none, none, true⟩) := by rfl

example :
    after_agent true ⟨some "cashuAexample", 50, 50, .active, none, false⟩
      = ⟨.completed, some "cashu_refund_50", some false⟩ := by decide

end MiddlewareChecks

/-! ## The internal balance tool (`payment.py`, `check_payment_balance`)

The `_check_payment_balance` tool body (lines 196–256). Everything here is
local; state changes travel in the returned `Command` update (absent in the
plain-string return). -/

/-- The Python string value of a `payment_status`. -/
def pStatusStr : PStatus → String
  | .pending => "pending" | .active => "active" | .exhausted => "exhausted"
  | .completed => "completed" | .error => "error" | .refunded => "refunded"

/-- Result of `check_payment_balance`: a `Command` whose update dict is the
new payment state plus a tool message, or a plain string (no state change). -/
inductive CheckResult where
  | update (st : PayState) (msg : String)
  | text (msg : String)
deriving Repr

def check_payment_balance (cost : Int) (validate : Validator) (s : PayState) :
    CheckResult :=
  let token := s.payment_token
  let spent := s.payment_spent_sats
  let p :=
    if s.payment_status = .pending ∧ truthy token then
      match validate (token.getD "") with
      | (true, amount, _) => (amount, PStatus.active)
      | (false, _, _) => (s.payment_balance_sats, PStatus.error)
    else if s.payment_status = .pending ∧ ¬ truthy token then
      (s.payment_balance_sats, PStatus.active)
    else (s.payment_balance_sats, s.payment_status)
  let balance := p.1
  let status := p.2
  if truthy token ∧ balance ≤ 0 ∧ status = .active then
    .update {s with payment_status := .exhausted}
      "Payment balance exhausted. Use request_additional_funding to continue."
  else if cost ≤ balance then
    .update {s with payment_balance_sats := balance - cost, payment_spent_sats := spent + cost, payment_status := status}
      (String.mk ("Balance: ".data ++ intDec (balance - cost) ++ " sats (spent ".data ++ intDec (spent + cost) ++ " total)".data))
  else
    .text (String.mk ("Balance: ".data ++ intDec balance ++ " sats, Status: ".data ++ (pStatusStr status).data))

/-! ## The LangGraph payment flow (`graph.py`)

`validate_token_format`, `validate_payment_node`, `agent_node`,
`finalize_node` and the graph routing built in `graph.py`. The Python
`base64.urlsafe_b64decode` standard-library call is an oracle
`b64decodeLen : String → Option Nat` giving the decoded byte length
(`none` models a raised exception); the wallet HTTP call of
`redeem_token_to_wallet` is an oracle `redeem : String → Bool`. -/

/-- `validate_token_format(token)` (lines 269–301) together with the
diagnostic its `print` calls emit on failure: prefix check, base64url
padding, decode, decoded-length check; any exception yields `False`. -/
def validate_token_format (b64decodeLen : String → Option Nat) (token : String) :
    Bool × Option String :=
  if ¬ (pyStartsWith token "cashuA" || pyStartsWith token "cashuB") then
    (false, some "Unknown token format")
  else
    let token_data := token.data.drop 6
    let padding := 4 - token_data.length % 4
    let padded := if padding ≠ 4 then token_data ++ List.replicate padding '=' else token_data
    match b64decodeLen (String.mk padded) with
    | none => (false, some "Token format validation failed")
    | some n => if n < 10 then (false, some "Token data too short") else (true, none)

/-- The `payment` input dict (`PaymentInfo`, total=False). -/
structure GPaymentInfo where
  ecash_token : Option String
  amount_sats : Int

/-- The payment-relevant fields of the graph `AgentState` after
`validate_payment_node`. -/
structure GState where
  payment_validated : Bool
  payment_token : Option String
  refund : Bool
deriving Repr, DecidableEq

/-- Observable payment events of one graph run, in order: the raw token
logged for recovery at validation, the refundable-token log of the agent
error path, a redemption call (with the wallet's answer), and the
manual-recovery log after a failed redemption. -/
inductive TraceEv where
  | receivedLogged (token : String)
  | refundableLogged (token : String)
  | redeemCalled (token : String) (ok : Bool)
  | manualRecoveryLogged (token : String)
deriving Repr, DecidableEq

/-- `validate_payment_node` (lines 346–420): free mode when no truthy token,
unconditional acceptance of debug tokens (with `payment_token = None` so
they are never redeemed), otherwise format validation. -/
def validate_payment_node (b64decodeLen : String → Option Nat)
    (payment : Option GPaymentInfo) : GState × List TraceEv :=
  match payment with
  | none => (⟨true, none, false⟩, [])
  | some p =>
    match p.ecash_token with
    | none => (⟨true, none, false⟩, [])
    | some token =>
      if token = "" then (⟨true, none, false⟩, [])
      else if pyStartsWith token "cashu_debug_" || token = "debug" then
        (⟨true, none, false⟩, [])
      else if (validate_token_format b64decodeLen token).1 then
        (⟨true, some token, false⟩, [.receivedLogged token])
      else
        (⟨false, none, true⟩, [.receivedLogged token])

/-- One LLM invocation inside `agent_node`: the call raises, or returns a
response that does or does not carry tool calls. -/
inductive LLMEvent where
  | raises
  | responds (hasToolCalls : Bool)

/-- `route_after_validation` (lines 530–534). -/
inductive GRoute where
  | agent | end_
deriving Repr, DecidableEq

def route_after_validation (g : GState) : GRoute :=
  if g.payment_validated then .agent else .end_

/-- `finalize_node` (lines 487–523): redeems the stored token (if any),
logs the full token for manual recovery when redemption fails, and returns
`refund = False`. -/
def finalize_node (redeem : String → Bool) (g : GState) (trace : List TraceEv) :
    GState × List TraceEv :=
  match g.payment_token with
  | some token =>
    if token ≠ "" then
      let ok := redeem token
      ({g with refund := false},
        trace ++ [.redeemCalled token ok] ++
          (if ok then [] else [.manualRecoveryLogged token]))
    else ({g with refund := false}, trace)
  | none => ({g with refund := false}, trace)

/-- The `agent → (tools → agent)* → finalize` loop: `agent_node` consumes
one LLM event per invocation; `should_continue` (lines 537–580) routes to
`tools` exactly when the response carries tool calls, and the `tools` node
returns to `agent`. On an exception `agent_node` logs the still-refundable
token, answers with a plain message carrying no tool calls and sets
`refund = True`; `should_continue` then routes that message to `finalize`.
An empty event list stands for `should_continue` finding no messages. -/
def agentLoop (redeem : String → Bool) (events : List LLMEvent) (g : GState)
    (trace : List TraceEv) : GState × List TraceEv :=
  match events with
  | [] => finalize_node redeem g trace
  | e :: rest =>
    if ¬ g.payment_validated then
      finalize_node redeem {g with refund := true} trace
    else
      match e with
      | .raises =>
        let trace :=
          match g.payment_token with
          | some t => if t ≠ "" then trace ++ [.refundableLogged t] else trace
          | none => trace
        finalize_node redeem {g with refund := true} trace
      | .responds true => agentLoop redeem rest g trace
      | .responds false => finalize_node redeem g trace

/-- A full graph run (`builder` wiring, lines 596–622): `validate_payment`,
then `route_after_validation` either ends the run or enters the agent loop. -/
def runGraph (b64decodeLen : String → Option Nat) (redeem : String → Bool)
    (payment : Option GPaymentInfo) (events : List LLMEvent) :
    GState × List TraceEv :=
  let v := validate_payment_node b64decodeLen payment
  match route_after_validation v.1 with
  | .agent => agentLoop redeem events v.1 v.2
  | .end_ => v

section GraphChecks

example :
    runGraph (fun _ => some 20) (fun _ => true)
      (some ⟨some "cashuAabcdef", 10⟩) [.raises]
      = (⟨true, some "cashuAabcdef", false⟩,
         [.receivedLogged "cashuAabcdef", .refundableLogged "cashuAabcdef",
          .redeemCalled "cashuAabcdef" true]) := by decide

example :
    runGraph (fun _ => some 20) (fun _ => true)
      (some ⟨some "notcashu123", 10⟩) [.responds false]
      = (⟨false, none, true⟩, [.receivedLogged "notcashu123"]) := by decide

example :
    runGraph (fun _ => some 20) (fun _ => true)
      (some ⟨some "debug", 10⟩) [.responds false]
      = (⟨true, none, false⟩, []) := by decide

end GraphChecks

/-! ## The wallet send endpoint (`wallet.py`)

`POST /send` (lines 107–133). The wallet service behind it is an oracle:
`balance` is what `wallet.get_balance()` returned, `create` what
`wallet.create_send_token(amount)` returns (`none` models a falsy token). -/

/-- The endpoint's outcome: a raised `HTTPException (status_code, detail)`
or the success dict `{"success": True, "amount": amount, "token": token}`. -/
inductive SendOutcome where
  | httpError (statusCode : Nat) (detail : String)
  | ok (amount : Int) (token : String)
deriving Repr, DecidableEq

def send_token (create : Int → Option String) (balance : Int) (amount : Int) :
    SendOutcome :=
  if balance < amount then
    .httpError 400 (String.mk ("Insufficient balance: ".data ++ intDec balance ++ " < ".data ++ intDec amount))
  else
    match create amount with
    | some token => .ok amount token
    | none => .httpError 500 "Failed to create send token"

example : send_token (fun _ => some "tok") 5 10
    = .httpError 400 "Insufficient balance: 5 < 10" := by decide
example : send_token (fun _ => some "tok") 10 7 = .ok 7 "tok" := by decide

/-! ## Decimal roundtrip

`natDec` renders exactly the decimal digits that `pyParseInt` reads back:
the refund token `f"cashu_refund_{amount}"` therefore encodes exactly its
amount. -/

/-- The accumulator `dcFuel fuel n a` that prepending the digits of `n`
contributes to a digit fold started at `a`. -/
def dcFuel : Nat → Nat → Nat → Nat
  | 0, _, a => a
  | fuel + 1, n, a => if n < 10 then a * 10 + n else dcFuel fuel (n / 10) a * 10 + n % 10

theorem digitChar10_facts (n : Nat) (h : n < 10) :
    (digitChar10 n).isDigit = true ∧ (digitChar10 n).toNat - 48 = n := by
  interval_cases n <;> exact ⟨by decide, by decide⟩

theorem isDigit_not_sign (c : Char) (h : c.isDigit = true) :
    pySpace c = false ∧ c ≠ '-' ∧ c ≠ '+' := by
  refine ⟨?_, ?_, ?_⟩
  · by_contra hs
    simp only [Bool.not_eq_false, pySpace, Bool.or_eq_true, beq_iff_eq,
      decide_eq_true_eq] at hs
    rcases hs with ((((h1 | h1) | h1) | h1) | h1) | h1 <;> subst h1 <;> simp at h
  · intro h1; subst h1; simp at h
  · intro h1; subst h1; simp at h

theorem foldDigits_natDecFuel (fuel : Nat) :
    ∀ n acc a, n < fuel →
      foldDigits (natDecFuel fuel n acc) a = foldDigits acc (dcFuel fuel n a) := by
  induction fuel with
  | zero => intro n acc a h; omega
  | succ f ih =>
    intro n acc a h
    by_cases h10 : n < 10
    · simp [natDecFuel, dcFuel, h10, foldDigits, (digitChar10_facts n h10).1,
        (digitChar10_facts n h10).2]
    · have hlt : n / 10 < f := by omega
      have hm : n % 10 < 10 := by omega
      simp only [natDecFuel, dcFuel]
      rw [if_neg h10, if_neg h10, ih (n / 10) (digitChar10 (n % 10) :: acc) a hlt]
      simp [foldDigits, (digitChar10_facts _ hm).1, (digitChar10_facts _ hm).2]

theorem dcFuel_zero (fuel : Nat) : ∀ n, n < fuel → dcFuel fuel n 0 = n := by
  induction fuel with
  | zero => intro n h; omega
  | succ f ih =>
    intro n h
    by_cases h10 : n < 10
    · simp [dcFuel, h10]
    · have hlt : n / 10 < f := by omega
      simp only [dcFuel]
      rw [if_neg h10, ih (n / 10) hlt]
      omega

theorem natDecFuel_digits (fuel : Nat) :
    ∀ n acc, (∀ c ∈ acc, c.isDigit = true) →
      ∀ c ∈ natDecFuel fuel n acc, c.isDigit = true := by
  induction fuel with
  | zero => intro n acc hacc; simpa [natDecFuel] using hacc
  | succ f ih =>
    intro n acc hacc c hc
    by_cases h10 : n < 10
    · simp only [natDecFuel, h10, if_pos] at hc
      rcases List.mem_cons.mp hc with h1 | h1
      · subst h1; exact (digitChar10_facts n h10).1
      · exact hacc c h1
    · simp only [natDecFuel] at hc
      rw [if_neg h10] at hc
      refine ih (n / 10) (digitChar10 (n % 10) :: acc) ?_ c hc
      intro d hd
      rcases List.mem_cons.mp hd with h1 | h1
      · subst h1; exact (digitChar10_facts _ (by omega)).1
      · exact hacc d h1

theorem natDecFuel_ne_nil (fuel : Nat) :
    ∀ n acc, n < fuel → natDecFuel fuel n acc ≠ [] := by
  induction fuel with
  | zero => intro n acc h; omega
  | succ f ih =>
    intro n acc h
    by_cases h10 : n < 10
    · simp [natDecFuel, h10]
    · have hlt : n / 10 < f := by omega
      simp only [natDecFuel]
      rw [if_neg h10]
      exact ih (n / 10) _ hlt

theorem natDec_digits (n : Nat) : ∀ c ∈ natDec n, c.isDigit = true :=
  natDecFuel_digits (n + 1) n [] (by simp)

theorem natDec_ne_nil (n : Nat) : natDec n ≠ [] :=
  natDecFuel_ne_nil (n + 1) n [] (by omega)

theorem dropWhile_eq_self_of_all (p : Char → Bool) (l : List Char)
    (h : ∀ c ∈ l, p c = false) : l.dropWhile p = l := by
  cases l with
  | nil => rfl
  | cons c t => simp [List.dropWhile_cons, h c (by simp)]

theorem pyStrip_digits (l : List Char) (h : ∀ c ∈ l, c.isDigit = true) :
    pyStrip l = l := by
  unfold pyStrip
  rw [dropWhile_eq_self_of_all _ l (fun c hc => (isDigit_not_sign c (h c hc)).1)]
  rw [dropWhile_eq_self_of_all _ l.reverse
    (fun c hc => (isDigit_not_sign c (h c (List.mem_reverse.mp hc))).1)]
  exact List.reverse_reverse l

theorem parseNatDigits_natDec (n : Nat) : parseNatDigits (natDec n) = some n := by
  have hne := natDec_ne_nil n
  rcases hl : natDec n with _ | ⟨c, rest⟩
  · exact absurd hl hne
  · show foldDigits (c :: rest) 0 = some n
    rw [← hl]
    show foldDigits (natDecFuel (n + 1) n []) 0 = some n
    rw [foldDigits_natDecFuel (n + 1) n [] 0 (by omega),
      dcFuel_zero (n + 1) n (by omega)]
    rfl

theorem pyParseInt_natDec (n : Nat) : pyParseInt (natDec n) = some (n : Int) := by
  unfold pyParseInt
  rw [pyStrip_digits (natDec n) (natDec_digits n)]
  rcases hl : natDec n with _ | ⟨c, rest⟩
  · exact absurd hl (natDec_ne_nil n)
  · have hc : c.isDigit = true := natDec_digits n c (by rw [hl]; simp)
    have hsign := isDigit_not_sign c hc
    simp only [hsign.2.1, hsign.2.2, if_neg, if_false]
    rw [← hl, parseNatDigits_natDec]
    rfl

theorem isPrefixOf_append (p l : List Char) : List.isPrefixOf p (p ++ l) = true := by
  induction p with
  | nil => cases l <;> rfl
  | cons c t ih => simp [List.isPrefixOf, ih]

theorem decodeRefundToken_encodes (amount : Int) (h : 0 < amount) :
    decodeRefundToken (String.mk ("cashu_refund_".data ++ intDec amount)) =
      some amount := by
  unfold decodeRefundToken pyStartsWith
  have hpre : List.isPrefixOf "cashu_refund_".data
      ("cashu_refund_".data ++ intDec amount) = true := isPrefixOf_append _ _
  simp only [hpre, if_pos]
  have hdrop : ("cashu_refund_".data ++ intDec amount).drop 13 = intDec amount := by
    have : ("cashu_refund_".data).length = 13 := by decide
    rw [← this]
    exact List.drop_left _ _
  rw [hdrop]
  unfold intDec
  rw [if_neg (by omega)]
  rw [pyParseInt_natDec]
  congr 1
  omega

/-! ## The conservation invariant of the middleware -/

/-- The invariant carried through an instrumented session: the conservation
law together with non-negativity of the balance and the fact that a pending
session has not yet been credited. -/
def ConsInv (g : GRun) : Prop :=
  g.st.payment_spent_sats + g.st.payment_balance_sats = g.face + g.topups
  ∧ 0 ≤ g.st.payment_balance_sats
  ∧ (g.st.payment_status = .pending → g.st.payment_balance_sats = 0)

/-- A validator every whose accepted amount is non-negative (true of real
Cashu proofs; debug tokens can embed negative amounts). -/
def NonnegValidator (validate : Validator) : Prop :=
  ∀ t, (validate t).1 = true → 0 ≤ (validate t).2.1

theorem paymentInit_spec (validate : Validator) (hv : NonnegValidator validate)
    (s : PayState) (hpend : s.payment_status = .pending → s.payment_balance_sats = 0)
    (hb : 0 ≤ s.payment_balance_sats) :
    (paymentInit validate s).st.payment_spent_sats = s.payment_spent_sats
    ∧ (paymentInit validate s).st.payment_token = s.payment_token
    ∧ (paymentInit validate s).st.payment_balance_sats = (paymentInit validate s).balance
    ∧ (paymentInit validate s).st.payment_status ≠ .pending
    ∧ 0 ≤ (paymentInit validate s).balance
    ∧ (paymentInit validate s).balance =
        s.payment_balance_sats + ((paymentInit validate s).face.getD 0) := by
  unfold paymentInit
  split
  next hp =>
    split
    next ht =>
      split
      next amount e heq =>
        have hamt : 0 ≤ amount := by
          have h5 := hv (s.payment_token.getD "")
          rw [heq] at h5
          exact h5 rfl
        refine ⟨rfl, rfl, rfl, by simp, hamt, ?_⟩
        simp only [Option.getD_some]
        rw [hpend hp]
        omega
      next b amount e heq =>
        exact ⟨rfl, rfl, rfl, by simp, hb, by simp⟩
    next ht =>
      exact ⟨rfl, rfl, rfl, by simp, hb, by simp⟩
  next hp =>
    exact ⟨rfl, rfl, rfl, hp, hb, by simp⟩

theorem paymentExhaust_spec (validate : Validator) (hv : NonnegValidator validate)
    (origTok : Option String) (spent : Int) (resume : Option String)
    (st : PayState) (balance : Int) (status : PStatus)
    (hsb : st.payment_balance_sats = balance) (hb : 0 ≤ balance)
    (hst : st.payment_status ≠ .pending) :
    (paymentExhaust validate origTok spent resume st balance status).st.payment_spent_sats
        = st.payment_spent_sats
    ∧ (paymentExhaust validate origTok spent resume st balance status).st.payment_balance_sats
        = (paymentExhaust validate origTok spent resume st balance status).balance
    ∧ (paymentExhaust validate origTok spent resume st balance status).st.payment_status ≠ .pending
    ∧ 0 ≤ (paymentExhaust validate origTok spent resume st balance status).balance
    ∧ (paymentExhaust validate origTok spent resume st balance status).balance
        = balance + ((paymentExhaust validate origTok spent resume st balance status).topup.getD 0) := by
  unfold paymentExhaust
  split
  next hc =>
    have hbz : balance = 0 := by omega
    split
    next newTok =>
      split
      next hne =>
        split
        next amount e heq =>
          have hamt : 0 ≤ amount := by
            have h5 := hv newTok
            rw [heq] at h5
            exact h5 rfl
          refine ⟨rfl, rfl, by simp, hamt, ?_⟩
          simp only [Option.getD_some]
          omega
        next b amount e heq =>
          exact ⟨rfl, hsb, by simp, hb, by simp⟩
      next hne =>
        exact ⟨rfl, hsb, by simp, hb, by simp⟩
    next =>
      exact ⟨rfl, hsb, by simp, hb, by simp⟩
  next hc =>
    exact ⟨rfl, hsb, hst, hb, by simp⟩

theorem paymentDeduct_spec (cost : Int) (origTok : Option String) (spent : Int)
    (st : PayState) (balance : Int)
    (hsb : st.payment_balance_sats = balance) (hss : st.payment_spent_sats = spent)
    (hb : 0 ≤ balance) :
    0 ≤ (paymentDeduct cost origTok spent st balance).st.payment_balance_sats
    ∧ (paymentDeduct cost origTok spent st balance).st.payment_spent_sats
        + (paymentDeduct cost origTok spent st balance).st.payment_balance_sats
        = spent + balance
    ∧ (paymentDeduct cost origTok spent st balance).st.payment_status
        = st.payment_status := by
  unfold paymentDeduct
  split
  next hc =>
    refine ⟨?_, ?_, rfl⟩ <;> dsimp only <;> omega
  next hc =>
    refine ⟨?_, ?_, rfl⟩ <;> dsimp only <;> omega

theorem runStep_inv (cost : Int) (validate : Validator) (hv : NonnegValidator validate)
    (g : GRun) (ev : MidEvent) (h : ConsInv g) : ConsInv (runStep cost validate g ev) := by
  obtain ⟨hcons, hb, hpend⟩ := h
  unfold ConsInv runStep awrap_tool_call
  by_cases hint : pyStartsWith ev.toolName "_" = true
  · simp only [if_pos hint]
    exact ⟨by simp only [Option.getD_none]; omega, hb, hpend⟩
  · simp only [if_neg hint]
    obtain ⟨h1spent, h1tok, h1bal, h1st, h1nb, h1eq⟩ :=
      paymentInit_spec validate hv g.st hpend hb
    obtain ⟨h2spent, h2bal, h2st, h2nb, h2eq⟩ :=
      paymentExhaust_spec validate hv g.st.payment_token g.st.payment_spent_sats
        ev.resume (paymentInit validate g.st).st (paymentInit validate g.st).balance
        (paymentInit validate g.st).status h1bal h1nb h1st
    obtain ⟨h3nb, h3eq, h3st⟩ :=
      paymentDeduct_spec cost g.st.payment_token g.st.payment_spent_sats
        (paymentExhaust validate g.st.payment_token g.st.payment_spent_sats
          ev.resume (paymentInit validate g.st).st (paymentInit validate g.st).balance
          (paymentInit validate g.st).status).st
        (paymentExhaust validate g.st.payment_token g.st.payment_spent_sats
          ev.resume (paymentInit validate g.st).st (paymentInit validate g.st).balance
          (paymentInit validate g.st).status).balance
        h2bal (by rw [h2spent, h1spent]) h2nb
    refine ⟨?_, ?_, ?_⟩
    · omega
    · omega
    · intro hp
      rw [h3st] at hp
      exact absurd hp h2st

theorem runSession_inv (cost : Int) (validate : Validator)
    (hv : NonnegValidator validate) (events : List MidEvent) :
    ∀ g : GRun, ConsInv g → ConsInv (runSession cost validate events g) := by
  induction events with
  | nil => intro g h; exact h
  | cons e rest ih =>
    intro g h
    have hstep := runStep_inv cost validate hv g e h
    simpa [runSession, List.foldl_cons] using ih (runStep cost validate g e) hstep

theorem initRun_inv (token : String) : ConsInv (initRun token) := by
  refine ⟨by simp [initRun, initPayState], by simp [initRun, initPayState], ?_⟩
  intro _
  simp [initRun, initPayState]

/-! ## Claim theorems -/

/-- C1 counterexample. The claim says a billable operation attempted while
`active` with `balance < cost_per_operation` transitions the session to
`exhausted`. On the concrete state (token held, balance 5, spent 10,
active) with `cost_per_iteration = 10`, `awrap_tool_call` leaves the state
completely unchanged: the status stays `active`, no exhaustion transition
happens (the code's exhaustion guard is `balance <= 0`, not
`balance < cost`), and the tool executes anyway. -/
theorem low_balance_keeps_active_counterexample :
    (awrap_tool_call 10 (fun _ => (true, 100, none)) "search_book" none
        ⟨some "cashuAexample", 5, 10, .active, none, false⟩).1
      = ⟨some "cashuAexample", 5, 10, .active, none, false⟩
    ∧ (awrap_tool_call 10 (fun _ => (true, 100, none)) "search_book" none
        ⟨some "cashuAexample", 5, 10, .active, none, false⟩).1.payment_status
      ≠ .exhausted := by
  exact ⟨by decide, by decide⟩

/-- C1 (amended). While `active` with a token and `0 ≤ balance < cost`, a
billable operation performs no deduction (balance and spent unchanged, so
the balance stays non-negative), but the transition to `exhausted` fires
only when `balance ≤ 0` — when `0 < balance < cost` the middleware leaves
the state untouched (still `active`) and the internal
`check_payment_balance` tool likewise returns a plain string with no state
update. -/
theorem low_balance_no_deduction (cost : Int) (validate : Validator)
    (toolName : String) (s : PayState)
    (hname : pyStartsWith toolName "_" = false)
    (htok : truthy s.payment_token = true)
    (hact : s.payment_status = .active)
    (hb0 : 0 ≤ s.payment_balance_sats)
    (hlt : s.payment_balance_sats < cost) :
    (awrap_tool_call cost validate toolName none s).1.payment_balance_sats
        = s.payment_balance_sats
    ∧ (awrap_tool_call cost validate toolName none s).1.payment_spent_sats
        = s.payment_spent_sats
    ∧ (awrap_tool_call cost validate toolName none s).2.deducted = false
    ∧ ((awrap_tool_call cost validate toolName none s).1.payment_status = .exhausted
        ↔ s.payment_balance_sats ≤ 0)
    ∧ (0 < s.payment_balance_sats →
        (awrap_tool_call cost validate toolName none s).1 = s)
    ∧ (0 < s.payment_balance_sats →
        check_payment_balance cost validate s
          = .text (String.mk ("Balance: ".data ++ intDec s.payment_balance_sats
              ++ " sats, Status: ".data ++ "active".data))) := by
  have hnp : ¬ (s.payment_status = PStatus.pending) := by rw [hact]; decide
  have hname' : ¬ (pyStartsWith toolName "_" = true) := by simp [hname]
  unfold awrap_tool_call
  rw [if_neg hname']
  unfold paymentInit
  rw [if_neg hnp]
  dsimp only
  unfold paymentExhaust
  by_cases hz : s.payment_balance_sats ≤ 0
  · rw [if_pos ⟨htok, hz, hact⟩]
    dsimp only
    unfold paymentDeduct
    rw [if_neg (fun hq => absurd hq.2 (by omega))]
    refine ⟨rfl, rfl, rfl, ⟨fun _ => hz, fun _ => rfl⟩, ?_, ?_⟩
    · intro hpos; exact absurd hpos (by omega)
    · intro hpos; exact absurd hpos (by omega)
  · rw [if_neg (fun hq => hz hq.2.1)]
    dsimp only
    unfold paymentDeduct
    rw [if_neg (fun hq => absurd hq.2 (by omega))]
    refine ⟨rfl, rfl, rfl, ?_, fun _ => rfl, fun _ => ?_⟩
    · rw [hact]
      simpa using hz
    · unfold check_payment_balance
      dsimp only
      rw [if_neg (show ¬ (s.payment_status = PStatus.pending
            ∧ truthy s.payment_token = true) from fun hq => hnp hq.1),
          if_neg (show ¬ (s.payment_status = PStatus.pending
            ∧ ¬ truthy s.payment_token = true) from fun hq => hnp hq.1)]
      dsimp only
      rw [if_neg (show ¬ (truthy s.payment_token = true
            ∧ s.payment_balance_sats ≤ 0 ∧ s.payment_status = PStatus.active)
            from fun hq => hz hq.2.1)]
      rw [if_neg (show ¬ (cost ≤ s.payment_balance_sats) from by omega)]
      rw [hact]
      rfl

/-- C1 witness: the amended statement at balance 5, cost 10. -/
theorem low_balance_no_deduction_witness :
    (awrap_tool_call 10 (fun _ => (true, 100, none)) "search_book" none
        ⟨some "cashuAexample", 5, 10, .active, none, false⟩).1.payment_balance_sats = 5
    ∧ (awrap_tool_call 10 (fun _ => (true, 100, none)) "search_book" none
        ⟨some "cashuAexample", 5, 10, .active, none, false⟩).1.payment_spent_sats = 10
    ∧ (awrap_tool_call 10 (fun _ => (true, 100, none)) "search_book" none
        ⟨some "cashuAexample", 5, 10, .active, none, false⟩).2.deducted = false
    ∧ ((awrap_tool_call 10 (fun _ => (true, 100, none)) "search_book" none
        ⟨some "cashuAexample", 5, 10, .active, none, false⟩).1.payment_status = .exhausted
        ↔ (5 : Int) ≤ 0)
    ∧ ((0 : Int) < 5 →
        (awrap_tool_call 10 (fun _ => (true, 100, none)) "search_book" none
          ⟨some "cashuAexample", 5, 10, .active, none, false⟩).1
        = ⟨some "cashuAexample", 5, 10, .active, none, false⟩)
    ∧ ((0 : Int) < 5 →
        check_payment_balance 10 (fun _ => (true, 100, none))
            ⟨some "cashuAexample", 5, 10, .active, none, false⟩
          = .text (String.mk ("Balance: ".data ++ intDec 5
              ++ " sats, Status: ".data ++ "active".data))) :=
  low_balance_no_deduction 10 (fun _ => (true, 100, none)) "search_book"
    ⟨some "cashuAexample", 5, 10, .active, none, false⟩
    (by decide) (by decide) rfl (by decide) (by decide)

/-- C2 counterexample. The debug-token parser accepts negative embedded
amounts (`int("-5")`), and the resume path *sets* the balance to the new
token's amount instead of adding it, so with original token
`cashu_debug_-5` (face value −5) and top-up `cashu_debug_30` a single tool
call ends with `spent + balance = 30` while
`face_value + sum(topups) = 25`: the conservation law fails. -/
theorem conservation_negative_debug_counterexample :
    (runSession 10 (validate_token_sync true (fun _ => .error "x"))
        [⟨"search_book", some "cashu_debug_30"⟩] (initRun "cashu_debug_-5")).st.payment_spent_sats
      + (runSession 10 (validate_token_sync true (fun _ => .error "x"))
        [⟨"search_book", some "cashu_debug_30"⟩] (initRun "cashu_debug_-5")).st.payment_balance_sats
      = 30
    ∧ (runSession 10 (validate_token_sync true (fun _ => .error "x"))
        [⟨"search_book", some "cashu_debug_30"⟩] (initRun "cashu_debug_-5")).face
      + (runSession 10 (validate_token_sync true (fun _ => .error "x"))
        [⟨"search_book", some "cashu_debug_30"⟩] (initRun "cashu_debug_-5")).topups
      = 25 := by
  exact ⟨by decide, by decide⟩

/-- C2 (amended). For every cost, every validator whose accepted amounts
are non-negative, and every sequence of billable events (tool calls with
arbitrary interrupt-resume top-ups), a session started from the
provided-token initial state (`spent = 0`, balance set on first
validation) satisfies `spent + balance = face_value + sum(topups)` after
every operation, and the balance never goes negative. The non-negativity
side condition is forced by the counterexample: a debug token with a
negative embedded amount breaks the law because the resume path sets
rather than adds the balance. -/
theorem conservation_law (cost : Int) (validate : Validator)
    (hv : NonnegValidator validate) (token : String) (events : List MidEvent) :
    (runSession cost validate events (initRun token)).st.payment_spent_sats
      + (runSession cost validate events (initRun token)).st.payment_balance_sats
    = (runSession cost validate events (initRun token)).face
      + (runSession cost validate events (initRun token)).topups
    ∧ 0 ≤ (runSession cost validate events (initRun token)).st.payment_balance_sats := by
  have h := runSession_inv cost validate hv events (initRun token) (initRun_inv token)
  exact ⟨h.1, h.2.1⟩

/-- C2 witness: a constant 100-sat validator, one billable call at cost 10:
`10 + 90 = 100 + 0`. -/
theorem conservation_law_witness :
    (runSession 10 (fun _ => (true, 100, none)) [⟨"search_book", none⟩]
        (initRun "cashuAexample")).st.payment_spent_sats
      + (runSession 10 (fun _ => (true, 100, none)) [⟨"search_book", none⟩]
        (initRun "cashuAexample")).st.payment_balance_sats
    = (runSession 10 (fun _ => (true, 100, none)) [⟨"search_book", none⟩]
        (initRun "cashuAexample")).face
      + (runSession 10 (fun _ => (true, 100, none)) [⟨"search_book", none⟩]
        (initRun "cashuAexample")).topups
    ∧ 0 ≤ (runSession 10 (fun _ => (true, 100, none)) [⟨"search_book", none⟩]
        (initRun "cashuAexample")).st.payment_balance_sats :=
  conservation_law 10 (fun _ => (true, 100, none))
    (fun _ _ => by norm_num) "cashuAexample" [⟨"search_book", none⟩]

/-- C3: the code contradicts the claim (and its own module docstring
"On FAILURE: don't redeem"). With a validly-formatted token and an LLM
call that raises, `agent_node` logs the token as refundable and sets
`refund = True`, but its error `AIMessage` carries no tool calls, so
`should_continue` routes it to `finalize_node`, which redeems the original
token anyway and overwrites `refund` with `False`. -/
theorem error_path_still_redeems :
    runGraph (fun _ => some 20) (fun _ => true)
        (some ⟨some "cashuAabcdef", 10⟩) [.raises]
      = (⟨true, some "cashuAabcdef", false⟩,
         [.receivedLogged "cashuAabcdef", .refundableLogged "cashuAabcdef",
          .redeemCalled "cashuAabcdef" true]) := by
  decide

/-- C4 counterexample. The claim says that after a validation failure no
billable operation proceeds and no deduction occurs. With `DEV_MODE`
disabled, token `notcashu123` (validation fails), and a pre-set input
balance of 100 (the middleware docstring's own usage example pre-sets
`payment_balance_sats`), the wrapper sets `status = error` but still
deducts 10 sats (balance 90, spent 10) and still executes the tool: the
deduction guard checks only the token and the balance, never the status. -/
theorem validation_failure_still_bills_counterexample :
    awrap_tool_call 10 (validate_token_sync false (fun _ => .error "boom"))
        "search_book" none ⟨some "notcashu123", 100, 0, .pending, none, false⟩
      = (⟨some "notcashu123", 90, 10, .error, none, false⟩,
         ⟨true, none, none, none, true⟩) := by
  rfl

/-- C4 (amended). On a validation failure the status is set to `error` and,
on the graph side, the session routes to `END` with `refund = true`,
`payment_validated = false` and no redemption call ever, for any
subsequent events. In the middleware, starting from the default
zero-balance input no deduction occurs (balance and spent stay 0) — but
the tool call itself is *not* blocked: the wrapped handler still executes
(and with a pre-set positive input balance it even deducts, per the
counterexample). -/
theorem validation_failure_behavior (b64 : String → Option Nat)
    (redeem : String → Bool) (events : List LLMEvent) (amt : Int)
    (validate : Validator) (cost : Int) (e : String)
    (hc : 0 < cost)
    (hval : validate "notcashu123" = (false, 0, some e)) :
    (runGraph b64 redeem (some ⟨some "notcashu123", amt⟩) events).1
      = ⟨false, none, true⟩
    ∧ (∀ t ok, TraceEv.redeemCalled t ok ∉
        (runGraph b64 redeem (some ⟨some "notcashu123", amt⟩) events).2)
    ∧ route_after_validation ⟨false, none, true⟩ = .end_
    ∧ awrap_tool_call cost validate "search_book" none (initPayState "notcashu123")
      = ({initPayState "notcashu123" with payment_status := .error},
         ⟨true, none, none, none, false⟩) := by
  have hnode : validate_payment_node b64 (some ⟨some "notcashu123", amt⟩)
      = (⟨false, none, true⟩, [.receivedLogged "notcashu123"]) := by
    unfold validate_payment_node
    dsimp only
    rw [if_neg (show ¬ ("notcashu123" = "") by decide)]
    rw [if_neg (show ¬ ((pyStartsWith "notcashu123" "cashu_debug_"
      || "notcashu123" = "debug") = true) by decide)]
    rw [if_neg ?hfmt]
    case hfmt =>
      unfold validate_token_format
      rw [if_pos (show ¬ ((pyStartsWith "notcashu123" "cashuA"
        || pyStartsWith "notcashu123" "cashuB") = true) by decide)]
      decide
  have hrun : runGraph b64 redeem (some ⟨some "notcashu123", amt⟩) events
      = (⟨false, none, true⟩, [.receivedLogged "notcashu123"]) := by
    unfold runGraph
    rw [hnode]
    rfl
  refine ⟨by rw [hrun], ?_, rfl, ?_⟩
  · intro t ok
    rw [hrun]
    simp
  · unfold awrap_tool_call
    rw [if_neg (show ¬ (pyStartsWith "search_book" "_" = true) by decide)]
    unfold initPayState paymentInit
    dsimp only
    rw [if_pos (show PStatus.pending = PStatus.pending from rfl)]
    rw [if_pos (show truthy (some "notcashu123") = true by decide)]
    rw [show (some "notcashu123").getD "" = "notcashu123" from rfl]
    rw [hval]
    dsimp only
    unfold paymentExhaust
    rw [if_neg (show ¬ (truthy (some "notcashu123") = true
        ∧ (0 : Int) ≤ 0 ∧ PStatus.pending = PStatus.active) from
      fun hq => absurd hq.2.2 (by decide))]
    unfold paymentDeduct
    dsimp only
    rw [if_neg (show ¬ (truthy (some "notcashu123") = true
        ∧ cost ≤ (0 : Int)) from fun hq => absurd hq.2 (by omega))]

/-- C4 witness: the amended statement at `DEV_MODE = false`, token
`notcashu123`, one LLM event, cost 10. -/
theorem validation_failure_behavior_witness :
    (runGraph (fun _ => some 20) (fun _ => true)
        (some ⟨some "notcashu123", 10⟩) [.responds false]).1
      = ⟨false, none, true⟩
    ∧ (∀ t ok, TraceEv.redeemCalled t ok ∉
        (runGraph (fun _ => some 20) (fun _ => true)
          (some ⟨some "notcashu123", 10⟩) [.responds false]).2)
    ∧ route_after_validation ⟨false, none, true⟩ = .end_
    ∧ awrap_tool_call 10 (validate_token_sync false (fun _ => .error "boom"))
        "search_book" none (initPayState "notcashu123")
      = ({initPayState "notcashu123" with payment_status := .error},
         ⟨true, none, none, none, false⟩) :=
  validation_failure_behavior (fun _ => some 20) (fun _ => true) [.responds false]
    10 (validate_token_sync false (fun _ => .error "boom")) 10 "boom"
    (by decide) (by decide)

/-- C5: on session completion with a truthy token and a positive remaining
balance, `after_agent` returns `payment_status = completed`, a refund token
`f"cashu_refund_{balance}"` that decodes to exactly the remaining balance,
and `payment_refund_claimed = False`; with no token or a non-positive
balance it returns only `payment_status = completed` and no refund
token. -/
theorem completed_refund_exact (devMode : Bool) (s : PayState) :
    (truthy s.payment_token = true → 0 < s.payment_balance_sats →
      after_agent devMode s
          = ⟨.completed,
             some (String.mk ("cashu_refund_".data ++ intDec s.payment_balance_sats)),
             some false⟩
        ∧ decodeRefundToken
            (String.mk ("cashu_refund_".data ++ intDec s.payment_balance_sats))
          = some s.payment_balance_sats)
    ∧ ((truthy s.payment_token = false ∨ s.payment_balance_sats ≤ 0) →
        after_agent devMode s = ⟨.completed, none, none⟩) := by
  constructor
  · intro htok hpos
    have hgen : generate_refund_token_sync devMode (s.payment_token.getD "")
        s.payment_balance_sats
        = some (String.mk ("cashu_refund_".data ++ intDec s.payment_balance_sats)) := by
      unfold generate_refund_token_sync
      rw [if_neg (show ¬ (s.payment_balance_sats ≤ 0) from by omega)]
      dsimp only
      exact ite_self _
    constructor
    · unfold after_agent
      rw [if_neg (show ¬ (truthy s.payment_token = false ∨ s.payment_balance_sats ≤ 0)
          from by
        intro hq
        rcases hq with h1 | h1
        · rw [htok] at h1; cases h1
        · omega)]
      rw [hgen]
    · exact decodeRefundToken_encodes s.payment_balance_sats hpos
  · intro hcond
    unfold after_agent
    rw [if_pos hcond]

/-- C5 witness: token held, balance 50 → refund token `cashu_refund_50`
decoding to 50 and `refund_claimed = False`. -/
theorem completed_refund_exact_witness :
    (truthy (some "cashuAexample" : Option String) = true → (0 : Int) < 50 →
      after_agent true ⟨some "cashuAexample", 50, 50, .active, none, false⟩
          = ⟨.completed, some (String.mk ("cashu_refund_".data ++ intDec 50)),
             some false⟩
        ∧ decodeRefundToken (String.mk ("cashu_refund_".data ++ intDec 50))
          = some 50)
    ∧ ((truthy (some "cashuAexample" : Option String) = false ∨ (50 : Int) ≤ 0) →
        after_agent true ⟨some "cashuAexample", 50, 50, .active, none, false⟩
          = ⟨.completed, none, none⟩) :=
  completed_refund_exact true ⟨some "cashuAexample", 50, 50, .active, none, false⟩

/-- C6 counterexample. The claim says a debug token is never accepted when
the development-mode flag is disabled. With `devMode = false` and a
deserializer that rejects everything, `validate_token_sync` still accepts
`cashu_debug_50` with its embedded amount: the debug-token check precedes
and ignores the `DEV_MODE` gate. -/
theorem debug_token_accepted_hardened_counterexample :
    validate_token_sync false (fun _ => .error "unknown token") "cashu_debug_50"
      = (true, 50, none) := by
  decide

/-- C6 (amended). A debug-format token (`cashu_debug_*` prefix or the
literal `debug`) is accepted with its embedded (or default 100) amount
regardless of the development-mode flag, by both `validate_token_sync` and
the graph's `validate_payment_node` (which has no flag at all and clears
`payment_token` so debug tokens are never redeemed). -/
theorem debug_token_always_accepted (devMode : Bool)
    (d : String → Except String Int) (b64 : String → Option Nat)
    (t : String) (amt : Int)
    (hdbg : pyStartsWith t "cashu_debug_" = true ∨ t = "debug") :
    validate_token_sync devMode d t = (true, debugTokenAmount t, none)
    ∧ (validate_payment_node b64 (some ⟨some t, amt⟩)).1 = ⟨true, none, false⟩ := by
  have hne : ¬ (t = "") := by
    intro h
    subst h
    rcases hdbg with h1 | h1
    · exact absurd h1 (by decide)
    · exact absurd h1 (by decide)
  have hcond : (pyStartsWith t "cashu_debug_" || t = "debug") = true := by
    rcases hdbg with h1 | h1
    · simp [h1]
    · subst h1; decide
  constructor
  · unfold validate_token_sync
    rw [if_neg hne, if_pos hcond]
  · unfold validate_payment_node
    dsimp only
    rw [if_neg hne, if_pos hcond]

/-- C6 witness: `cashu_debug_50` accepted with amount 50 in a hardened
(`devMode = false`) deployment, and accepted by the graph node. -/
theorem debug_token_always_accepted_witness :
    validate_token_sync false (fun _ => .error "x") "cashu_debug_50"
      = (true, debugTokenAmount "cashu_debug_50", none)
    ∧ (validate_payment_node (fun _ => some 20)
        (some ⟨some "cashu_debug_50", 10⟩)).1 = ⟨true, none, false⟩ :=
  debug_token_always_accepted false (fun _ => .error "x") (fun _ => some 20)
    "cashu_debug_50" 10 (Or.inl (by decide))

/-- C7 counterexample. The claim says `validate("notcashu123")` returns
`(False, 0, "Unknown token format...")`. Under the source's default
configuration (`DEV_MODE = true`), `validate_token_sync` *accepts* the
malformed token with amount 100: the development branch swallows the
deserialization failure. -/
theorem malformed_token_dev_accept_counterexample :
    validate_token_sync true (fun _ => .error "unknown") "notcashu123"
      = (true, 100, none)
    ∧ (validate_token_sync true (fun _ => .error "unknown") "notcashu123").1
      = true := by
  exact ⟨by decide, by decide⟩

/-- C7 (amended). Malformed tokens never raise (every embedded function is
total) and are reported through the return contract, but by the right
function and configuration: the graph-side `validate_token_format` rejects
`notcashu123` with the `Unknown token format` diagnostic for every base64
oracle; `validate_token_sync` returns `(False, 0, error)` for an
undecodable token only when the development flag is disabled — with the
flag enabled (the source default) it returns `(True, 100, None)`. -/
theorem malformed_token_handling (b64 : String → Option Nat)
    (d : String → Except String Int) (e : String)
    (hd : d "notcashu123" = .error e) :
    validate_token_format b64 "notcashu123" = (false, some "Unknown token format")
    ∧ validate_token_sync false d "notcashu123" = (false, 0, some e)
    ∧ validate_token_sync true d "notcashu123" = (true, 100, none) := by
  refine ⟨?_, ?_, ?_⟩
  · unfold validate_token_format
    rw [if_pos (show ¬ ((pyStartsWith "notcashu123" "cashuA"
      || pyStartsWith "notcashu123" "cashuB") = true) by decide)]
  · unfold validate_token_sync
    rw [if_neg (show ¬ ("notcashu123" = "") by decide)]
    rw [if_neg (show ¬ ((pyStartsWith "notcashu123" "cashu_debug_"
      || "notcashu123" = "debug") = true) by decide)]
    rw [if_neg (show ¬ (false = true) by decide)]
    rw [hd]
  · unfold validate_token_sync
    rw [if_neg (show ¬ ("notcashu123" = "") by decide)]
    rw [if_neg (show ¬ ((pyStartsWith "notcashu123" "cashu_debug_"
      || "notcashu123" = "debug") = true) by decide)]
    rw [if_pos (show (true = true) from rfl)]
    rw [hd]

/-- C7 witness: the amended statement at a concrete failing deserializer. -/
theorem malformed_token_handling_witness :
    validate_token_format (fun _ => some 20) "notcashu123"
      = (false, some "Unknown token format")
    ∧ validate_token_sync false (fun _ => .error "bad") "notcashu123"
      = (false, 0, some "bad")
    ∧ validate_token_sync true (fun _ => .error "bad") "notcashu123"
      = (true, 100, none) :=
  malformed_token_handling (fun _ => some 20) (fun _ => .error "bad") "bad" rfl

/-- C8 counterexample. The claim says the structured funding request
contains the amount spent so far, *a suggested top-up amount*, and an
action identifier the caller can approve, *edit*, or reject. At
`spent = 10` the emitted dict contains exactly these keys and exactly the
numbers `[10, 10]` (both occurrences of `spent`): no suggested-amount key
or value (the tool's default 100 never reaches the payload), and the
allowed decisions are only `approve` and `reject` — no `edit`. -/
theorem interrupt_payload_no_suggested_amount_counterexample :
    jnums (interruptData 10) = [10, 10]
    ∧ jHasKey (interruptData 10) "suggested_amount_sats" = false
    ∧ jHasKey (interruptData 10) "suggested_amount" = false
    ∧ jkeys (interruptData 10)
      = ["type", "spent_sats", "message", "action_requests", "name", "args",
         "reason", "spent_so_far", "review_configs", "action_name",
         "allowed_decisions"] := by
  refine ⟨by decide, by decide, by decide, by decide⟩

theorem interruptData_no_suggested (spent : Int) :
    jHasKey (interruptData spent) "suggested_amount_sats" = false
    ∧ jHasKey (interruptData spent) "suggested_amount" = false :=
  ⟨rfl, rfl⟩

theorem paymentExhaust_intr (validate : Validator) (origTok : Option String)
    (spent : Int) (resume : Option String) (st : PayState) (balance : Int)
    (status : PStatus) :
    (paymentExhaust validate origTok spent resume st balance status).intr = none
    ∨ (paymentExhaust validate origTok spent resume st balance status).intr
      = some (interruptData spent) := by
  unfold paymentExhaust
  split
  · split
    next newTok =>
      split
      · split
        next => right; rfl
        next => right; rfl
      · right; rfl
    next => right; rfl
  · left; rfl

/-- C8 (amended). Whenever `awrap_tool_call` emits an interrupt payload, it
is exactly `interrupt_data` built from the `spent` value read at entry: it
carries `spent_sats` (and `args.spent_so_far`) equal to the amount spent so
far and the machine-readable action name `request_additional_funding` with
allowed decisions `approve` and `reject` — but it contains no suggested
top-up amount (the only numbers in it are the two copies of `spent`) and no
`edit` decision. -/
theorem interrupt_payload_contents (cost : Int) (validate : Validator)
    (toolName : String) (resume : Option String) (s : PayState) (payload : JVal)
    (hintr : (awrap_tool_call cost validate toolName resume s).2.intr
      = some payload) :
    payload = interruptData s.payment_spent_sats
    ∧ jGet payload "spent_sats" = some (.jnum s.payment_spent_sats)
    ∧ jnums payload = [s.payment_spent_sats, s.payment_spent_sats]
    ∧ jHasKey payload "suggested_amount_sats" = false
    ∧ jHasKey payload "suggested_amount" = false
    ∧ jGet payload "review_configs"
      = some (.jarr [.jobj [("action_name", .jstr "request_additional_funding"),
          ("allowed_decisions", .jarr [.jstr "approve", .jstr "reject"])]]) := by
  have hpay : payload = interruptData s.payment_spent_sats := by
    unfold awrap_tool_call at hintr
    by_cases hint : pyStartsWith toolName "_" = true
    · rw [if_pos hint] at hintr
      simp at hintr
    · rw [if_neg hint] at hintr
      dsimp only at hintr
      rcases paymentExhaust_intr validate s.payment_token s.payment_spent_sats
          resume (paymentInit validate s).st (paymentInit validate s).balance
          (paymentInit validate s).status with hn | hs
      · rw [hn] at hintr
        exact Option.noConfusion hintr
      · rw [hs] at hintr
        exact (Option.some.inj hintr).symm
  subst hpay
  exact ⟨rfl, rfl, rfl, (interruptData_no_suggested s.payment_spent_sats).1,
    (interruptData_no_suggested s.payment_spent_sats).2, rfl⟩

/-- C8 witness: a concrete exhausted step (token held, balance 0,
spent 10, active) emits `interrupt_data` with the stated contents. -/
theorem interrupt_payload_contents_witness :
    interruptData 10
      = interruptData (PayState.payment_spent_sats
          ⟨some "cashuAexample", 0, 10, .active, none, false⟩)
    ∧ jGet (interruptData 10) "spent_sats" = some (.jnum 10)
    ∧ jnums (interruptData 10) = [10, 10]
    ∧ jHasKey (interruptData 10) "suggested_amount_sats" = false
    ∧ jHasKey (interruptData 10) "suggested_amount" = false
    ∧ jGet (interruptData 10) "review_configs"
      = some (.jarr [.jobj [("action_name", .jstr "request_additional_funding"),
          ("allowed_decisions", .jarr [.jstr "approve", .jstr "reject"])]]) :=
  interrupt_payload_contents 10 (fun _ => (true, 100, none)) "search_book" none
    ⟨some "cashuAexample", 0, 10, .active, none, false⟩ (interruptData 10) rfl

/-- C9: a tool whose name starts with `_` is executed directly — the
wrapper returns the state with every payment field unchanged and its log
shows no validation, no interrupt, no top-up and no deduction, for every
cost, validator, resume value and state. -/
theorem internal_tools_skip_payment (cost : Int) (validate : Validator)
    (toolName : String) (resume : Option String) (s : PayState)
    (hname : pyStartsWith toolName "_" = true) :
    awrap_tool_call cost validate toolName resume s
      = (s, ⟨true, none, none, none, false⟩) := by
  unfold awrap_tool_call
  rw [if_pos hname]

/-- C9 witness: the internal `_check_payment_balance` tool name on a
mid-session state. -/
theorem internal_tools_skip_payment_witness :
    awrap_tool_call 10 (fun _ => (true, 100, none)) "_check_payment_balance"
        (some "cashu_debug_30") ⟨some "cashuAexample", 5, 10, .active, none, false⟩
      = (⟨some "cashuAexample", 5, 10, .active, none, false⟩,
         ⟨true, none, none, none, false⟩) :=
  internal_tools_skip_payment 10 (fun _ => (true, 100, none))
    "_check_payment_balance" (some "cashu_debug_30")
    ⟨some "cashuAexample", 5, 10, .active, none, false⟩ (by decide)

/-- C10: `POST /send` raises HTTP 400 whenever the requested amount
exceeds the wallet balance — for *every* token-creation oracle, so no send
token is created on that path — and a success response is only ever
produced when `amount ≤ balance`, with the token coming from
`create_send_token(amount)`. -/
theorem send_insufficient_balance (create : Int → Option String)
    (balance amount : Int) :
    (balance < amount →
      send_token create balance amount
        = .httpError 400 (String.mk ("Insufficient balance: ".data
            ++ intDec balance ++ " < ".data ++ intDec amount)))
    ∧ (∀ a t, send_token create balance amount = .ok a t →
        amount ≤ balance ∧ a = amount ∧ create amount = some t) := by
  unfold send_token
  split
  next hlt =>
    refine ⟨fun _ => rfl, ?_⟩
    intro a t h
    exact SendOutcome.noConfusion h
  next hge =>
    refine ⟨fun hlt => absurd hlt hge, ?_⟩
    intro a t h
    rcases hc : create amount with _ | tok
    · rw [hc] at h
      exact SendOutcome.noConfusion h
    · rw [hc] at h
      injection h with h1 h2
      refine ⟨by omega, h1.symm, ?_⟩
      rw [h2]

/-- C10 witness: amount 10 against balance 5 → HTTP 400 with the exact
detail string; amount 7 against balance 10 → token created. -/
theorem send_insufficient_balance_witness :
    send_token (fun _ => some "tok") 5 10
      = .httpError 400 (String.mk ("Insufficient balance: ".data
          ++ intDec 5 ++ " < ".data ++ intDec 10))
    ∧ send_token (fun _ => some "tok") 10 7 = .ok 7 "tok" :=
  ⟨(send_insufficient_balance (fun _ => some "tok") 5 10).1 (by decide),
   by decide⟩
